import Mathlib

/-!
Verification of the FFmpeg process manager (`lib/ffmpeg-manager.ts`) of the
recorder repository.  The module manages FFmpeg subprocesses for HLS live
streaming and MP4 recording, tracked in an in-memory `Map` keyed by
`"cameraId-type"`.  We embed the manager's observable behaviour: the registry
of active processes, the event trace of each operation (directory creation,
spawn, settle delay, signals), and the outcome of each asynchronous call
(normal return, escaped rejection, or a promise that never settles).
-/

namespace Recorder

/-- The process kinds tracked by the manager: `'hls' | 'recording'`. -/
inductive ProcType
  | hls
  | recording
deriving DecidableEq, Repr

/-- The string used in the registry key, as in `getProcessKey`. -/
def typeStr : ProcType → String
  | ProcType.hls => "hls"
  | ProcType.recording => "recording"

/-- `getProcessKey(cameraId, type)` returns `` `${cameraId}-${type}` ``. -/
def getProcessKey (cameraId : String) (t : ProcType) : String :=
  cameraId ++ "-" ++ typeStr t

/-- POSIX signals used by the manager. -/
inductive Signal
  | sigterm
  | sigint
  | sigkill
deriving DecidableEq, Repr

/-- Behavioural model of a spawned `ChildProcess` handle: the pid assigned by
the OS (if any), whether `kill` raises for each signal, and how long after a
delivered graceful signal the process emits its `exit` event (`none` means it
never exits on its own in response to that signal). -/
structure ProcHandle where
  pid : Option Nat
  termRaises : Bool
  intRaises : Bool
  killRaises : Bool
  exitOnTerm : Option Nat
  exitOnInt : Option Nat
deriving DecidableEq, Repr

/-- Wall-clock instant with the components `Date.prototype.toISOString` emits
(restricted to the 4-digit-year range the format covers). -/
structure DateTime where
  year : Nat
  month : Nat
  day : Nat
  hour : Nat
  minute : Nat
  second : Nat
  ms : Nat
deriving DecidableEq, Repr

/-- Component bounds guaranteed for any `Date` within the 4-digit-year era. -/
def DateTime.Valid (d : DateTime) : Prop :=
  d.year < 10000 ∧ d.month ≤ 12 ∧ d.day ≤ 31 ∧
    d.hour < 24 ∧ d.minute < 60 ∧ d.second < 60 ∧ d.ms < 1000

instance (d : DateTime) : Decidable d.Valid := by
  unfold DateTime.Valid; infer_instance

/-- The `ProcessEntry` record from `lib/types.ts`. -/
structure ProcessEntry where
  pid : Nat
  type : ProcType
  cameraId : String
  startTime : DateTime
  outputPath : String
deriving DecidableEq, Repr

/-- The in-memory tracker `activeProcesses : Map<string, { process; entry }>`,
as an insertion-ordered association list. -/
abbrev Registry := List (String × ProcHandle × ProcessEntry)

/-- `Map.has`. -/
def mapHas (reg : Registry) (k : String) : Bool :=
  reg.any (fun x => x.1 == k)

/-- `Map.get`. -/
def mapGet (reg : Registry) (k : String) : Option (ProcHandle × ProcessEntry) :=
  (reg.find? (fun x => x.1 == k)).map (fun x => x.2)

/-- `Map.set`: replaces the value of an existing key, otherwise appends. -/
def mapSet (reg : Registry) (k : String) (v : ProcHandle × ProcessEntry) : Registry :=
  if mapHas reg k then
    reg.map (fun x => if x.1 == k then (k, v) else x)
  else
    reg ++ [(k, v)]

/-- `Map.delete`. -/
def mapDelete (reg : Registry) (k : String) : Registry :=
  reg.filter (fun x => !(x.1 == k))

/-- Number of registry entries stored under a key. -/
def countKey (reg : Registry) (k : String) : Nat :=
  (reg.filter (fun x => x.1 == k)).length

/-- Well-formedness: the backing `Map` can hold at most one entry per key. -/
def RegWf (reg : Registry) : Prop :=
  (reg.map (fun x => x.1)).Nodup

/-- Observable events of one manager operation, in program order.
`mkdirE` is an awaited directory creation, `spawnE` the (non-suspending)
subprocess spawn with the pid it yielded, `delayE` an awaited fixed delay in
milliseconds, `signalE` a successfully delivered `kill`. -/
inductive Event
  | mkdirE (dir : String)
  | spawnE (pid : Option Nat)
  | delayE (ms : Nat)
  | signalE (key : String) (s : Signal)
deriving DecidableEq, Repr

/-- Result of awaiting one of the manager's async operations: a value, an
escaped rejection (an exception crossing the public contract), or a promise
that never settles. -/
inductive Outcome (α : Type)
  | ok (a : α)
  | raised
  | hangs
deriving DecidableEq, Repr

/-- The character of a decimal digit. -/
def digitChar (n : Nat) : Char := Char.ofNat (48 + n)

/-- Two-digit zero-padded decimal, as `toISOString` prints months, days,
hours, minutes and seconds. -/
def pad2 (n : Nat) : List Char := [digitChar (n / 10), digitChar (n % 10)]

/-- Three-digit zero-padded decimal (the milliseconds field). -/
def pad3 (n : Nat) : List Char :=
  [digitChar (n / 100), digitChar (n / 10 % 10), digitChar (n % 10)]

/-- Four-digit zero-padded decimal (the year field). -/
def pad4 (n : Nat) : List Char :=
  [digitChar (n / 1000), digitChar (n / 100 % 10), digitChar (n / 10 % 10),
    digitChar (n % 10)]

/-- `Date.prototype.toISOString`: `YYYY-MM-DDTHH:mm:ss.sssZ` (character
list). -/
def toISOString (d : DateTime) : List Char :=
  pad4 d.year ++ ([Char.ofNat 45] ++ (pad2 d.month ++ ([Char.ofNat 45] ++
    (pad2 d.day ++ ([Char.ofNat 84] ++ (pad2 d.hour ++ ([Char.ofNat 58] ++
      (pad2 d.minute ++ ([Char.ofNat 58] ++ (pad2 d.second ++ ([Char.ofNat 46] ++
        (pad3 d.ms ++ [Char.ofNat 90]))))))))))))

/-- `.replace(/[:.]/g, '-')`: every colon and dot becomes a dash. -/
def replaceColonsDots (s : List Char) : List Char :=
  s.map (fun c => if c = Char.ofNat 58 ∨ c = Char.ofNat 46 then Char.ofNat 45 else c)

/-- `.replace('T', '_')` with a string pattern replaces only the first
occurrence. -/
def replaceFirstT : List Char → List Char
  | [] => []
  | c :: cs => if c = Char.ofNat 84 then Char.ofNat 95 :: cs else c :: replaceFirstT cs

/-- `generateRecordingFilename` evaluated at the clock reading `d`:
`toISOString` with `:` and `.` replaced by `-`, `T` by `_`, truncated to 19
characters, plus the `.mp4` extension. -/
def generateRecordingFilename (d : DateTime) : String :=
  String.mk ((replaceFirstT (replaceColonsDots (toISOString d))).take 19) ++ ".mp4"

/-- `outputPath.split(path.sep).pop()`: the last path component. -/
def lastPathComponent (s : String) : Option String :=
  (s.splitOn "/").getLast?

/-- Environment of one start call: everything outside the manager that the
call observes — the result of the `ffmpeg -version` probe, whether the
primary and fallback `mkdir` succeed, the handle the spawn yields, the
current clock, the working/temp directories, and whether an error or exit
callback of a failed spawn fires during the settle delay (the only
suspension during which callbacks can run before the caller sees a
result). -/
structure StartEnv where
  ffmpegAvailable : Bool
  primaryOk : Bool
  fallbackOk : Bool
  proc : ProcHandle
  now : DateTime
  cwd : String
  tmpdir : String
  settleDeletes : Bool
deriving DecidableEq, Repr

/-- `appConfig.hlsDir`. -/
def hlsDirConfig : String := "./public/streams"

/-- `appConfig.recordingsDir`. -/
def recordingsDirConfig : String := "./recordings"

/-- The primary HLS output directory `path.join(process.cwd(), appConfig.hlsDir, cameraId)`. -/
def hlsPrimaryDir (env : StartEnv) (cameraId : String) : String :=
  env.cwd ++ "/" ++ hlsDirConfig ++ "/" ++ cameraId

/-- The fallback HLS directory `path.join(os.tmpdir(), 'vapr', 'streams', cameraId)`. -/
def hlsFallbackDir (env : StartEnv) (cameraId : String) : String :=
  env.tmpdir ++ "/vapr/streams/" ++ cameraId

/-- The primary recording directory. -/
def recPrimaryDir (env : StartEnv) (cameraId : String) : String :=
  env.cwd ++ "/" ++ recordingsDirConfig ++ "/" ++ cameraId

/-- The fallback recording directory `path.join(os.tmpdir(), 'vapr', 'recordings', cameraId)`. -/
def recFallbackDir (env : StartEnv) (cameraId : String) : String :=
  env.tmpdir ++ "/vapr/recordings/" ++ cameraId

/-- The `try { ensureDir(primary) } catch { ... ensureDir(fallback) }` block
shared by both start operations: the fallback is attempted only when the
primary creation fails, and a failing fallback creation is not caught, so
its rejection escapes.  Returns the resolved directory and the awaited
`mkdir` events. -/
def resolveDir (primaryOk fallbackOk : Bool) (primary fallback : String) :
    Outcome (String × List Event) :=
  if primaryOk then Outcome.ok (primary, [Event.mkdirE primary])
  else if fallbackOk then
    Outcome.ok (fallback, [Event.mkdirE primary, Event.mkdirE fallback])
  else Outcome.raised

/-- `startHlsStream(cameraId, rtspUrl)`.  Returns the final registry, the
boolean result and the event trace, or `raised` when an exception escapes. -/
def startHlsStream (env : StartEnv) (reg : Registry) (cameraId rtspUrl : String) :
    Outcome (Registry × Bool × List Event) :=
  let key := getProcessKey cameraId ProcType.hls
  if rtspUrl = "" then Outcome.ok (reg, false, [])
  else if env.ffmpegAvailable = false then Outcome.ok (reg, false, [])
  else if mapHas reg key then Outcome.ok (reg, true, [])
  else
    match resolveDir env.primaryOk env.fallbackOk
        (hlsPrimaryDir env cameraId) (hlsFallbackDir env cameraId) with
    | Outcome.raised => Outcome.raised
    | Outcome.hangs => Outcome.hangs
    | Outcome.ok (dir, dirEvents) =>
      let playlistPath := dir ++ "/stream.m3u8"
      let entry : ProcessEntry :=
        { pid := env.proc.pid.getD 0
          type := ProcType.hls
          cameraId := cameraId
          startTime := env.now
          outputPath := playlistPath }
      let reg1 := mapSet reg key (env.proc, entry)
      -- `await new Promise(resolve => setTimeout(resolve, 1000))`: during the
      -- settle delay a spawn-failure callback may already have removed the entry
      let reg2 := if env.settleDeletes then mapDelete reg1 key else reg1
      Outcome.ok (reg2, env.proc.pid.isSome,
        dirEvents ++ [Event.spawnE env.proc.pid, Event.delayE 1000])

/-- Result record of `startRecording`: `{ success, filename? }`. -/
structure RecResult where
  success : Bool
  filename : Option String
deriving DecidableEq, Repr

/-- `startRecording(cameraId, rtspUrl)`.  Identical precondition ladder to
`startHlsStream`; generates a timestamped filename; registers the entry
immediately after spawning and returns without any settle delay. -/
def startRecording (env : StartEnv) (reg : Registry) (cameraId rtspUrl : String) :
    Outcome (Registry × RecResult × List Event) :=
  let key := getProcessKey cameraId ProcType.recording
  if rtspUrl = "" then Outcome.ok (reg, { success := false, filename := none }, [])
  else if env.ffmpegAvailable = false then
    Outcome.ok (reg, { success := false, filename := none }, [])
  else
    match mapGet reg key with
    | some existing =>
      Outcome.ok (reg,
        { success := true, filename := lastPathComponent existing.2.outputPath }, [])
    | none =>
      match resolveDir env.primaryOk env.fallbackOk
          (recPrimaryDir env cameraId) (recFallbackDir env cameraId) with
      | Outcome.raised => Outcome.raised
      | Outcome.hangs => Outcome.hangs
      | Outcome.ok (dir, dirEvents) =>
        let filename := generateRecordingFilename env.now
        let outputPath := dir ++ "/" ++ filename
        let entry : ProcessEntry :=
          { pid := env.proc.pid.getD 0
            type := ProcType.recording
            cameraId := cameraId
            startTime := env.now
            outputPath := outputPath }
        let reg1 := mapSet reg key (env.proc, entry)
        Outcome.ok (reg1,
          { success := env.proc.pid.isSome, filename := some filename },
          dirEvents ++ [Event.spawnE env.proc.pid])

/-- Does the process emit its exit event strictly inside the timeout
window, given its response delay to the delivered graceful signal? -/
def exitsWithin (response : Option Nat) (window : Nat) : Bool :=
  match response with
  | some t => t < window
  | none => false

/-- `stopHlsStream(cameraId)`.  Missing entry: immediate `true`.  Otherwise
`kill('SIGTERM')` (unguarded — a raising kill escapes), then a race between
the exit event and a 5000 ms timer whose callback sends `SIGKILL`
(unguarded; it resolves only after the kill, so a raising `SIGKILL` with no
later natural exit never settles). -/
def stopHlsStream (reg : Registry) (cameraId : String) :
    Outcome (Registry × Bool × List Event) :=
  let key := getProcessKey cameraId ProcType.hls
  match mapGet reg key with
  | none => Outcome.ok (reg, true, [])
  | some (p, _) =>
    if p.termRaises then Outcome.raised
    else
      let evs := [Event.signalE key Signal.sigterm]
      if exitsWithin p.exitOnTerm 5000 then
        Outcome.ok (mapDelete reg key, true, evs)
      else if p.killRaises then
        match p.exitOnTerm with
        | some _ => Outcome.ok (mapDelete reg key, true, evs)
        | none => Outcome.hangs
      else
        Outcome.ok (mapDelete reg key, true, evs ++ [Event.signalE key Signal.sigkill])

/-- `stopRecording(cameraId)`.  Missing entry: immediate `true`.  Graceful
signal is `SIGINT`; if its delivery raises, the catch block falls back to
`SIGTERM` (a raising fallback escapes).  The race window is 10000 ms and the
timer callback wraps `SIGKILL` in try/catch and always resolves. -/
def stopRecording (reg : Registry) (cameraId : String) :
    Outcome (Registry × Bool × List Event) :=
  let key := getProcessKey cameraId ProcType.recording
  match mapGet reg key with
  | none => Outcome.ok (reg, true, [])
  | some (p, _) =>
    let graceful : Outcome (Signal × Option Nat) :=
      if p.intRaises = false then Outcome.ok (Signal.sigint, p.exitOnInt)
      else if p.termRaises = false then Outcome.ok (Signal.sigterm, p.exitOnTerm)
      else Outcome.raised
    match graceful with
    | Outcome.raised => Outcome.raised
    | Outcome.hangs => Outcome.hangs
    | Outcome.ok (sig, response) =>
      let evs := [Event.signalE key sig]
      if exitsWithin response 10000 then
        Outcome.ok (mapDelete reg key, true, evs)
      else if p.killRaises then
        Outcome.ok (mapDelete reg key, true, evs)
      else
        Outcome.ok (mapDelete reg key, true, evs ++ [Event.signalE key Signal.sigkill])

/-- Completion instant of one entry inside `stopAllProcesses`: its promise
resolves at the exit event if that fires inside the uniform 5000 ms window,
otherwise when the timer fires at 5000 ms (the timer callback always
resolves). -/
def stopAllCompletion (p : ProcHandle) : Nat :=
  match p.exitOnTerm with
  | some t => min t 5000
  | none => 5000

/-- Events one entry contributes in `stopAllProcesses`: the graceful
`SIGTERM`, and — when no exit is observed inside the 5000 ms window — the
`SIGKILL` (recorded when its delivery does not raise; the raise is
swallowed by the catch block). -/
def stopAllEvents (k : String) (p : ProcHandle) : List Event :=
  Event.signalE k Signal.sigterm ::
    (if exitsWithin p.exitOnTerm 5000 then []
     else if p.killRaises then []
     else [Event.signalE k Signal.sigkill])

/-- `stopAllProcesses()`.  For every entry currently registered it builds a
promise that sends `SIGTERM` (unguarded in the executor: a raise rejects the
whole `Promise.all`), races the exit event against a uniform 5000 ms timer
(regardless of kind), escalating to a guarded `SIGKILL`; awaits all of them
and then clears the map.  Returns the final registry, the combined trace and
the resolution instant (the latest per-entry completion). -/
def stopAllProcesses (reg : Registry) : Outcome (Registry × List Event × Nat) :=
  if reg.any (fun x => x.2.1.termRaises) then Outcome.raised
  else
    Outcome.ok ([],
      (reg.map (fun x => stopAllEvents x.1 x.2.1)).flatten,
      reg.foldr (fun x acc => max (stopAllCompletion x.2.1) acc) 0)

/-- Did an operation return the boolean `false` (as opposed to returning
`true`, raising, or hanging)? -/
def returnedFalse (o : Outcome (Registry × Bool × List Event)) : Bool :=
  match o with
  | Outcome.ok (_, b, _) => !b
  | _ => false

/-- The boolean a stream/stop style operation returned, when it returned. -/
def returnedBool (o : Outcome (Registry × Bool × List Event)) : Option Bool :=
  match o with
  | Outcome.ok (_, b, _) => some b
  | _ => none

/-- The `success` flag `startRecording` resolved with, when it resolved. -/
def recSuccess (o : Outcome (Registry × RecResult × List Event)) : Option Bool :=
  match o with
  | Outcome.ok (_, r, _) => some r.success
  | _ => none

/-- The registry `startRecording` left behind, when it resolved. -/
def recRegistry (o : Outcome (Registry × RecResult × List Event)) : Option Registry :=
  match o with
  | Outcome.ok (reg, _, _) => some reg
  | _ => none

/-- The event trace `startRecording` produced, when it resolved. -/
def recTrace (o : Outcome (Registry × RecResult × List Event)) : Option (List Event) :=
  match o with
  | Outcome.ok (_, _, evs) => some evs
  | _ => none

/-- The event trace a stream-start produced, when it resolved. -/
def hlsTrace (o : Outcome (Registry × Bool × List Event)) : Option (List Event) :=
  match o with
  | Outcome.ok (_, _, evs) => some evs
  | _ => none

/-- Does a trace contain any awaited settle delay? -/
def hasDelay (evs : List Event) : Bool :=
  evs.any (fun e => match e with
    | Event.delayE _ => true
    | _ => false)

/-- The events recorded after the spawn. -/
def afterSpawn : List Event → List Event
  | [] => []
  | Event.spawnE _ :: rest => rest
  | _ :: rest => afterSpawn rest

/-- A healthy handle: spawn yielded pid 4242, no kill raises, prompt exits. -/
def procOk : ProcHandle :=
  { pid := some 4242, termRaises := false, intRaises := false,
    killRaises := false, exitOnTerm := some 1000, exitOnInt := some 2000 }

/-- A handle whose spawn failed to yield a pid (executable not found). -/
def procNoPid : ProcHandle :=
  { pid := none, termRaises := false, intRaises := false,
    killRaises := false, exitOnTerm := none, exitOnInt := none }

/-- A handle that never exits in response to graceful signals. -/
def procStubborn : ProcHandle :=
  { pid := some 7, termRaises := false, intRaises := false,
    killRaises := false, exitOnTerm := none, exitOnInt := none }

/-- A handle whose `kill('SIGTERM')` raises. -/
def procTermRaises : ProcHandle :=
  { pid := some 8, termRaises := true, intRaises := false,
    killRaises := false, exitOnTerm := some 100, exitOnInt := some 100 }

/-- A handle whose `kill('SIGINT')` raises but whose `kill('SIGTERM')`
succeeds. -/
def procIntRaises : ProcHandle :=
  { pid := some 9, termRaises := false, intRaises := true,
    killRaises := false, exitOnTerm := some 100, exitOnInt := some 100 }

/-- The clock instant 2024-01-15T14:30:00.000Z. -/
def dt0 : DateTime :=
  { year := 2024, month := 1, day := 15, hour := 14, minute := 30, second := 0, ms := 0 }

/-- The same second as `dt0`, 500 milliseconds later. -/
def dt0later : DateTime :=
  { year := 2024, month := 1, day := 15, hour := 14, minute := 30, second := 0, ms := 500 }

/-- A fully healthy start environment. -/
def envOk : StartEnv :=
  { ffmpegAvailable := true, primaryOk := true, fallbackOk := true,
    proc := procOk, now := dt0, cwd := "/app", tmpdir := "/tmp",
    settleDeletes := false }

/-- Environment whose spawn yields no pid. -/
def envNoPid : StartEnv :=
  { envOk with proc := procNoPid }

/-- Environment where both the primary and the fallback directory creation
fail. -/
def envBothDirsFail : StartEnv :=
  { envOk with primaryOk := false, fallbackOk := false }

/-- The entry `startHlsStream envOk [] "cam1"` registers. -/
def entryHls0 : ProcessEntry :=
  { pid := 4242, type := ProcType.hls, cameraId := "cam1", startTime := dt0,
    outputPath := "/app/./public/streams/cam1/stream.m3u8" }

/-- The entry `startRecording envOk [] "cam1"` registers. -/
def entryRec0 : ProcessEntry :=
  { pid := 4242, type := ProcType.recording, cameraId := "cam1", startTime := dt0,
    outputPath := "/app/./recordings/cam1/2024-01-15_14-30-00.mp4" }

/-- A registry holding one streaming and one recording entry for `cam1`. -/
def regBoth : Registry :=
  [("cam1-hls", procOk, entryHls0), ("cam1-recording", procOk, entryRec0)]

/-- A registry whose only (recording) process ignores graceful signals. -/
def regStubbornRec : Registry :=
  [("cam1-recording", procStubborn,
    { entryRec0 with pid := 7 })]

/-- A registry whose streaming process raises on `kill('SIGTERM')`. -/
def regTermRaisesHls : Registry :=
  [("cam1-hls", procTermRaises, { entryHls0 with pid := 8 })]

/-- A registry whose recording process raises on `kill('SIGINT')` only. -/
def regIntRaisesRec : Registry :=
  [("cam1-recording", procIntRaises, { entryRec0 with pid := 9 })]

/-- A mixed registry: a cooperative streaming process and a stubborn
recording process that ignores graceful signals. -/
def regMixed : Registry :=
  [("cam1-hls", procOk, entryHls0),
   ("cam1-recording", procStubborn, { entryRec0 with pid := 7 })]

/-- Environment whose primary directory creation fails but whose fallback
succeeds. -/
def envFallbackOnly : StartEnv :=
  { envOk with primaryOk := false }

/-- One second after `dt0`. -/
def dt1 : DateTime :=
  { year := 2024, month := 1, day := 15, hour := 14, minute := 30, second := 1, ms := 0 }

/-- Does a string match `####-##-##_##-##-##.mp4`? -/
def matchesPattern (s : String) : Bool :=
  match s.data with
  | [y3, y2, y1, y0, a, mo1, mo0, b, d1, d0, c, h1, h0, e, mi1, mi0, f, s1, s0,
     g, m, p, four] =>
      y3.isDigit && y2.isDigit && y1.isDigit && y0.isDigit &&
      mo1.isDigit && mo0.isDigit && d1.isDigit && d0.isDigit &&
      h1.isDigit && h0.isDigit && mi1.isDigit && mi0.isDigit &&
      s1.isDigit && s0.isDigit &&
      (a == Char.ofNat 45) && (b == Char.ofNat 45) && (c == Char.ofNat 95) &&
      (e == Char.ofNat 45) && (f == Char.ofNat 45) && (g == Char.ofNat 46) &&
      (m == Char.ofNat 109) && (p == Char.ofNat 112) && (four == Char.ofNat 52)
  | _ => false

/-- Strict lexicographic order on character lists (by code point): the order
in which generated filenames sort in a directory listing. -/
def lexLt : List Char → List Char → Bool
  | [], [] => false
  | [], _ :: _ => true
  | _ :: _, [] => false
  | a :: as, b :: bs => if a < b then true else if b < a then false else lexLt as bs

/-- The timestamp truncated to whole seconds — exactly the information the
generated filename retains. -/
def truncSec (d : DateTime) : Nat × Nat × Nat × Nat × Nat × Nat :=
  (d.year, d.month, d.day, d.hour, d.minute, d.second)

/-- Strict chronological order of timestamps at second granularity
(lexicographic on year, month, day, hour, minute, second). -/
def truncLt (a b : DateTime) : Prop :=
  a.year < b.year ∨ (a.year = b.year ∧ (a.month < b.month ∨ (a.month = b.month ∧
    (a.day < b.day ∨ (a.day = b.day ∧ (a.hour < b.hour ∨ (a.hour = b.hour ∧
      (a.minute < b.minute ∨ (a.minute = b.minute ∧ a.second < b.second)))))))))

instance (a b : DateTime) : Decidable (truncLt a b) := by
  unfold truncLt; infer_instance

/-- The first 19 characters of a generated filename: the second-truncated
timestamp rendered as `YYYY-MM-DD_HH-mm-ss`. -/
def fnStem (d : DateTime) : List Char :=
  pad4 d.year ++ Char.ofNat 45 :: (pad2 d.month ++ Char.ofNat 45 ::
    (pad2 d.day ++ Char.ofNat 95 :: (pad2 d.hour ++ Char.ofNat 45 ::
      (pad2 d.minute ++ Char.ofNat 45 :: pad2 d.second))))

instance (reg : Registry) : Decidable (RegWf reg) := by
  unfold RegWf; infer_instance

theorem mapGet_eq_none_of_not_has (reg : Registry) (k : String)
    (h : mapHas reg k = false) : mapGet reg k = none := by
  unfold mapGet
  have hfind : List.find? (fun x => x.1 == k) reg = none := by
    apply List.find?_eq_none.2
    intro x hx hpx
    have : reg.any (fun x => x.1 == k) = true := List.any_eq_true.2 ⟨x, hx, hpx⟩
    rw [mapHas] at h
    simp [this] at h
  rw [hfind]
  rfl

theorem mapHas_of_get_some (reg : Registry) (k : String) (v : ProcHandle × ProcessEntry)
    (h : mapGet reg k = some v) : mapHas reg k = true := by
  unfold mapGet at h
  unfold mapHas
  rcases Option.map_eq_some'.1 h with ⟨x, hx, _⟩
  have hmem := List.mem_of_find?_eq_some hx
  have hpx := List.find?_some hx
  exact List.any_eq_true.2 ⟨x, hmem, hpx⟩

theorem countKey_eq_zero_of_not_mem (reg : Registry) (k : String)
    (h : k ∉ reg.map (fun x => x.1)) : countKey reg k = 0 := by
  unfold countKey
  rw [List.length_eq_zero, List.filter_eq_nil_iff]
  intro x hx hpx
  exact h (List.mem_map.2 ⟨x, hx, by simpa using hpx⟩)

theorem countKey_cons (x : String × ProcHandle × ProcessEntry)
    (rest : Registry) (k : String) :
    countKey (x :: rest) k = (if x.1 == k then 1 else 0) + countKey rest k := by
  unfold countKey
  rw [List.filter_cons]
  by_cases h : (x.1 == k) = true
  · simp [h]
    omega
  · simp [h]

theorem countKey_eq_one_of_wf (reg : Registry) (k : String)
    (hwf : RegWf reg) (hh : mapHas reg k = true) : countKey reg k = 1 := by
  induction reg with
  | nil => simp [mapHas] at hh
  | cons x rest ih =>
    rw [RegWf, List.map_cons, List.nodup_cons] at hwf
    rw [countKey_cons]
    by_cases hx : (x.1 == k) = true
    · have hk : x.1 = k := by simpa using hx
      have hzero : countKey rest k = 0 := by
        apply countKey_eq_zero_of_not_mem
        rw [← hk]
        exact hwf.1
      simp [hx, hzero]
    · have hh2 : mapHas rest k = true := by
        rw [mapHas, List.any_cons] at hh
        have hxf : (x.1 == k) = false := Bool.eq_false_iff.2 hx
        rw [hxf] at hh
        rw [mapHas]
        simpa using hh
      simp [hx]
      exact ih hwf.2 hh2

/-- C1: for every cameraId and sourceUrl, `startHlsStream` and
`startRecording` apply their preconditions in the stated order: an empty
source URL fails with no process created; otherwise a negative availability
probe fails; otherwise an existing live entry for the (cameraId, kind) key
returns success (for recording, the existing output's filename) without
spawning, leaving exactly one registry entry for that key. -/
theorem C1_start_precondition_order
    (env : StartEnv) (reg : Registry) (cameraId rtspUrl : String)
    (hwf : RegWf reg) :
    (rtspUrl = "" →
      startHlsStream env reg cameraId rtspUrl = Outcome.ok (reg, false, []) ∧
      startRecording env reg cameraId rtspUrl =
        Outcome.ok (reg, { success := false, filename := none }, [])) ∧
    (rtspUrl ≠ "" → env.ffmpegAvailable = false →
      startHlsStream env reg cameraId rtspUrl = Outcome.ok (reg, false, []) ∧
      startRecording env reg cameraId rtspUrl =
        Outcome.ok (reg, { success := false, filename := none }, [])) ∧
    (rtspUrl ≠ "" → env.ffmpegAvailable = true →
      (mapHas reg (getProcessKey cameraId ProcType.hls) = true →
        startHlsStream env reg cameraId rtspUrl = Outcome.ok (reg, true, []) ∧
        countKey reg (getProcessKey cameraId ProcType.hls) = 1) ∧
      (∀ p e, mapGet reg (getProcessKey cameraId ProcType.recording) = some (p, e) →
        startRecording env reg cameraId rtspUrl =
          Outcome.ok (reg,
            { success := true, filename := lastPathComponent e.outputPath }, []) ∧
        countKey reg (getProcessKey cameraId ProcType.recording) = 1)) := by
  refine ⟨?_, ?_, ?_⟩
  · intro hurl
    constructor
    · simp [startHlsStream, hurl]
    · simp [startRecording, hurl]
  · intro hurl hav
    constructor
    · simp [startHlsStream, hurl, hav]
    · simp [startRecording, hurl, hav]
  · intro hurl hav
    constructor
    · intro hhas
      refine ⟨by simp [startHlsStream, hurl, hav, hhas], ?_⟩
      exact countKey_eq_one_of_wf _ _ hwf hhas
    · intro p e hget
      refine ⟨by simp [startRecording, hurl, hav, hget], ?_⟩
      exact countKey_eq_one_of_wf _ _ hwf (mapHas_of_get_some _ _ _ hget)

/-- Witness for C1 on a concrete registry holding one streaming and one
recording entry for camera `cam1`. -/
theorem C1_start_precondition_order_witness :
    RegWf regBoth ∧
    ((("url1" : String) = "" →
      startHlsStream envOk regBoth "cam1" "url1" = Outcome.ok (regBoth, false, []) ∧
      startRecording envOk regBoth "cam1" "url1" =
        Outcome.ok (regBoth, { success := false, filename := none }, [])) ∧
    (("url1" : String) ≠ "" → envOk.ffmpegAvailable = false →
      startHlsStream envOk regBoth "cam1" "url1" = Outcome.ok (regBoth, false, []) ∧
      startRecording envOk regBoth "cam1" "url1" =
        Outcome.ok (regBoth, { success := false, filename := none }, [])) ∧
    (("url1" : String) ≠ "" → envOk.ffmpegAvailable = true →
      (mapHas regBoth (getProcessKey "cam1" ProcType.hls) = true →
        startHlsStream envOk regBoth "cam1" "url1" = Outcome.ok (regBoth, true, []) ∧
        countKey regBoth (getProcessKey "cam1" ProcType.hls) = 1) ∧
      (∀ p e, mapGet regBoth (getProcessKey "cam1" ProcType.recording) = some (p, e) →
        startRecording envOk regBoth "cam1" "url1" =
          Outcome.ok (regBoth,
            { success := true, filename := lastPathComponent e.outputPath }, []) ∧
        countKey regBoth (getProcessKey "cam1" ProcType.recording) = 1))) :=
  ⟨by decide, C1_start_precondition_order envOk regBoth "cam1" "url1" (by decide)⟩

/-- C2: stopping a camera whose (cameraId, kind) key has no registry entry
returns `true`, produces no events (no signal, no spawn) and leaves the
registry unchanged, for both `stopHlsStream` and `stopRecording`. -/
theorem C2_stop_missing_entry (reg : Registry) (cameraId : String) :
    (mapHas reg (getProcessKey cameraId ProcType.hls) = false →
      stopHlsStream reg cameraId = Outcome.ok (reg, true, [])) ∧
    (mapHas reg (getProcessKey cameraId ProcType.recording) = false →
      stopRecording reg cameraId = Outcome.ok (reg, true, [])) := by
  constructor
  · intro h
    have := mapGet_eq_none_of_not_has _ _ h
    simp [stopHlsStream, this]
  · intro h
    have := mapGet_eq_none_of_not_has _ _ h
    simp [stopRecording, this]

/-- Witness for C2: stopping `cam2`, which has no entries, on a non-empty
registry. -/
theorem C2_stop_missing_entry_witness :
    (mapHas regBoth (getProcessKey "cam2" ProcType.hls) = false ∧
      mapHas regBoth (getProcessKey "cam2" ProcType.recording) = false) ∧
    (stopHlsStream regBoth "cam2" = Outcome.ok (regBoth, true, []) ∧
      stopRecording regBoth "cam2" = Outcome.ok (regBoth, true, [])) :=
  ⟨⟨by decide, by decide⟩,
    ⟨(C2_stop_missing_entry regBoth "cam2").1 (by decide),
     (C2_stop_missing_entry regBoth "cam2").2 (by decide)⟩⟩

/-- C4: on a live recording entry, `stopRecording` sends `SIGINT` (not
`SIGTERM`) as its graceful shutdown request, and when delivering the
interrupt raises it falls back to sending `SIGTERM`. -/
theorem C4_recording_graceful_sigint (reg : Registry) (cameraId : String)
    (p : ProcHandle) (e : ProcessEntry)
    (hget : mapGet reg (getProcessKey cameraId ProcType.recording) = some (p, e)) :
    (p.intRaises = false →
      ∃ evs, stopRecording reg cameraId =
          Outcome.ok (mapDelete reg (getProcessKey cameraId ProcType.recording), true, evs) ∧
        evs.head? = some (Event.signalE (getProcessKey cameraId ProcType.recording) Signal.sigint) ∧
        Event.signalE (getProcessKey cameraId ProcType.recording) Signal.sigterm ∉ evs) ∧
    (p.intRaises = true → p.termRaises = false →
      ∃ evs, stopRecording reg cameraId =
          Outcome.ok (mapDelete reg (getProcessKey cameraId ProcType.recording), true, evs) ∧
        evs.head? = some (Event.signalE (getProcessKey cameraId ProcType.recording) Signal.sigterm)) := by
  constructor
  · intro hint
    by_cases hw : exitsWithin p.exitOnInt 10000 = true
    · refine ⟨[Event.signalE (getProcessKey cameraId ProcType.recording) Signal.sigint],
        by simp [stopRecording, hget, hint, hw], by simp, by simp⟩
    · by_cases hk : p.killRaises = true
      · refine ⟨[Event.signalE (getProcessKey cameraId ProcType.recording) Signal.sigint],
          by simp [stopRecording, hget, hint, hw, hk], by simp, by simp⟩
      · refine ⟨[Event.signalE (getProcessKey cameraId ProcType.recording) Signal.sigint,
          Event.signalE (getProcessKey cameraId ProcType.recording) Signal.sigkill],
          by simp [stopRecording, hget, hint,
            Bool.eq_false_iff.2 hw, Bool.eq_false_iff.2 hk], by simp, by simp⟩
  · intro hint hterm
    by_cases hw : exitsWithin p.exitOnTerm 10000 = true
    · refine ⟨[Event.signalE (getProcessKey cameraId ProcType.recording) Signal.sigterm],
        by simp [stopRecording, hget, hint, hterm, hw], by simp⟩
    · by_cases hk : p.killRaises = true
      · refine ⟨[Event.signalE (getProcessKey cameraId ProcType.recording) Signal.sigterm],
          by simp [stopRecording, hget, hint, hterm, hw, hk], by simp⟩
      · refine ⟨[Event.signalE (getProcessKey cameraId ProcType.recording) Signal.sigterm,
          Event.signalE (getProcessKey cameraId ProcType.recording) Signal.sigkill],
          by simp [stopRecording, hget, hint, hterm,
            Bool.eq_false_iff.2 hw, Bool.eq_false_iff.2 hk], by simp⟩

/-- Witness for C4 on a concrete recording registry entry that accepts the
interrupt. -/
theorem C4_recording_graceful_sigint_witness :
    mapGet regBoth (getProcessKey "cam1" ProcType.recording) = some (procOk, entryRec0) ∧
    (procOk.intRaises = false →
      ∃ evs, stopRecording regBoth "cam1" =
          Outcome.ok (mapDelete regBoth (getProcessKey "cam1" ProcType.recording), true, evs) ∧
        evs.head? = some (Event.signalE (getProcessKey "cam1" ProcType.recording) Signal.sigint) ∧
        Event.signalE (getProcessKey "cam1" ProcType.recording) Signal.sigterm ∉ evs) :=
  ⟨by decide,
    (C4_recording_graceful_sigint regBoth "cam1" procOk entryRec0 (by decide)).1⟩

/-- C3: on an existing entry (with deliverable signals) the forceful
`SIGKILL` is issued if and only if no exit event is observed within the
kind-specific window after the graceful signal — 5000 ms for streaming,
10000 ms for recording — and in either path the entry is removed and `true`
is returned. -/
theorem C3_stop_timeout_escalation (reg : Registry) (cameraId : String)
    (p q : ProcHandle) (e f : ProcessEntry)
    (hgetS : mapGet reg (getProcessKey cameraId ProcType.hls) = some (p, e))
    (hgetR : mapGet reg (getProcessKey cameraId ProcType.recording) = some (q, f))
    (hpt : p.termRaises = false) (hpk : p.killRaises = false)
    (hqi : q.intRaises = false) (hqk : q.killRaises = false) :
    (∃ evs, stopHlsStream reg cameraId =
        Outcome.ok (mapDelete reg (getProcessKey cameraId ProcType.hls), true, evs) ∧
      (Event.signalE (getProcessKey cameraId ProcType.hls) Signal.sigkill ∈ evs ↔
        exitsWithin p.exitOnTerm 5000 = false)) ∧
    (∃ evs, stopRecording reg cameraId =
        Outcome.ok (mapDelete reg (getProcessKey cameraId ProcType.recording), true, evs) ∧
      (Event.signalE (getProcessKey cameraId ProcType.recording) Signal.sigkill ∈ evs ↔
        exitsWithin q.exitOnInt 10000 = false)) := by
  constructor
  · by_cases hw : exitsWithin p.exitOnTerm 5000 = true
    · refine ⟨[Event.signalE (getProcessKey cameraId ProcType.hls) Signal.sigterm],
        by simp [stopHlsStream, hgetS, hpt, hw], ?_⟩
      simp [hw]
    · refine ⟨[Event.signalE (getProcessKey cameraId ProcType.hls) Signal.sigterm,
        Event.signalE (getProcessKey cameraId ProcType.hls) Signal.sigkill],
        by simp [stopHlsStream, hgetS, hpt, hpk, Bool.eq_false_iff.2 hw], ?_⟩
      simp [Bool.eq_false_iff.2 hw]
  · by_cases hw : exitsWithin q.exitOnInt 10000 = true
    · refine ⟨[Event.signalE (getProcessKey cameraId ProcType.recording) Signal.sigint],
        by simp [stopRecording, hgetR, hqi, hw], ?_⟩
      simp [hw]
    · refine ⟨[Event.signalE (getProcessKey cameraId ProcType.recording) Signal.sigint,
        Event.signalE (getProcessKey cameraId ProcType.recording) Signal.sigkill],
        by simp [stopRecording, hgetR, hqi, hqk, Bool.eq_false_iff.2 hw], ?_⟩
      simp [Bool.eq_false_iff.2 hw]

/-- Witness for C3: the cooperative `cam1` processes of `regBoth` exit
within their windows (no `SIGKILL`), while the stubborn recording process of
`regMixed` never exits and is killed at the 10000 ms mark. -/
theorem C3_stop_timeout_escalation_witness :
    (mapGet regBoth (getProcessKey "cam1" ProcType.hls) = some (procOk, entryHls0) ∧
      procOk.termRaises = false ∧ procOk.killRaises = false) ∧
    ((∃ evs, stopHlsStream regBoth "cam1" =
        Outcome.ok (mapDelete regBoth (getProcessKey "cam1" ProcType.hls), true, evs) ∧
      (Event.signalE (getProcessKey "cam1" ProcType.hls) Signal.sigkill ∈ evs ↔
        exitsWithin procOk.exitOnTerm 5000 = false)) ∧
    (∃ evs, stopRecording regBoth "cam1" =
        Outcome.ok (mapDelete regBoth (getProcessKey "cam1" ProcType.recording), true, evs) ∧
      (Event.signalE (getProcessKey "cam1" ProcType.recording) Signal.sigkill ∈ evs ↔
        exitsWithin procOk.exitOnInt 10000 = false))) ∧
    (∃ evs, stopRecording regMixed "cam1" =
        Outcome.ok (mapDelete regMixed (getProcessKey "cam1" ProcType.recording), true, evs) ∧
      (Event.signalE (getProcessKey "cam1" ProcType.recording) Signal.sigkill ∈ evs ↔
        exitsWithin procStubborn.exitOnInt 10000 = false)) :=
  ⟨⟨by decide, by decide, by decide⟩,
    C3_stop_timeout_escalation regBoth "cam1" procOk procOk entryHls0 entryRec0
      (by decide) (by decide) rfl rfl rfl rfl,
    (C3_stop_timeout_escalation regMixed "cam1" procOk procStubborn
      entryHls0 ({ entryRec0 with pid := 7 })
      (by decide) (by decide) rfl rfl rfl rfl).2⟩

theorem eq_of_wf_same_key (reg : Registry) (hwf : RegWf reg)
    (x y : String × ProcHandle × ProcessEntry)
    (hx : x ∈ reg) (hy : y ∈ reg) (hk : x.1 = y.1) : x = y := by
  induction reg with
  | nil => cases hx
  | cons z rest ih =>
    rw [RegWf, List.map_cons, List.nodup_cons] at hwf
    rcases List.mem_cons.1 hx with rfl | hx2
    · rcases List.mem_cons.1 hy with rfl | hy2
      · rfl
      · exact absurd (List.mem_map.2 ⟨y, hy2, hk.symm⟩) hwf.1
    · rcases List.mem_cons.1 hy with rfl | hy2
      · exact absurd (List.mem_map.2 ⟨x, hx2, hk⟩) hwf.1
      · exact ih hwf.2 hx2 hy2

theorem completion_le_fold (reg : Registry) (x : String × ProcHandle × ProcessEntry)
    (hx : x ∈ reg) :
    stopAllCompletion x.2.1 ≤
      reg.foldr (fun y acc => max (stopAllCompletion y.2.1) acc) 0 := by
  induction reg with
  | nil => cases hx
  | cons z rest ih =>
    rcases List.mem_cons.1 hx with rfl | hx2
    · exact le_max_left _ _
    · exact le_trans (ih hx2) (le_max_right _ _)

/-- C5: `stopAllProcesses` runs the graceful-terminate / 5000 ms timeout /
forceful-kill sequence against every entry in the registry at call time with
the same window regardless of kind, resolves only at the latest per-entry
completion instant, and leaves the registry empty. -/
theorem C5_stopAll_uniform (reg : Registry) (hwf : RegWf reg)
    (hterm : ∀ x ∈ reg, x.2.1.termRaises = false) :
    ∃ evs t, stopAllProcesses reg = Outcome.ok ([], evs, t) ∧
      ∀ x ∈ reg,
        Event.signalE x.1 Signal.sigterm ∈ evs ∧
        (Event.signalE x.1 Signal.sigkill ∈ evs ↔
          (exitsWithin x.2.1.exitOnTerm 5000 = false ∧ x.2.1.killRaises = false)) ∧
        stopAllCompletion x.2.1 ≤ t := by
  have hnone : reg.any (fun x => x.2.1.termRaises) = false := by
    rw [List.any_eq_false]
    intro x hx
    simp [hterm x hx]
  refine ⟨(reg.map (fun x => stopAllEvents x.1 x.2.1)).flatten,
    reg.foldr (fun x acc => max (stopAllCompletion x.2.1) acc) 0,
    by rw [stopAllProcesses, hnone]; rfl, ?_⟩
  intro x hx
  refine ⟨?_, ⟨?_, ?_⟩, completion_le_fold reg x hx⟩
  · rw [List.mem_flatten]
    refine ⟨stopAllEvents x.1 x.2.1, List.mem_map.2 ⟨x, hx, rfl⟩, ?_⟩
    rw [stopAllEvents]
    exact List.mem_cons_self _ _
  · intro hmem
    rcases List.mem_flatten.1 hmem with ⟨l, hl, hmeml⟩
    rcases List.mem_map.1 hl with ⟨y, hy, rfl⟩
    rw [stopAllEvents] at hmeml
    rcases List.mem_cons.1 hmeml with h1 | h1
    · simp at h1
    · have hkeys : x.1 = y.1 := by
        by_cases hw : exitsWithin y.2.1.exitOnTerm 5000 = true
        · rw [hw] at h1
          simp at h1
        · rw [Bool.eq_false_iff.2 hw] at h1
          by_cases hk2 : y.2.1.killRaises = true
          · rw [hk2] at h1
            simp at h1
          · rw [Bool.eq_false_iff.2 hk2] at h1
            simpa using h1
      have hxy : x = y := eq_of_wf_same_key reg hwf x y hx hy hkeys
      subst hxy
      by_cases hw : exitsWithin x.2.1.exitOnTerm 5000 = true
      · rw [hw] at h1
        simp at h1
      · by_cases hk2 : x.2.1.killRaises = true
        · rw [Bool.eq_false_iff.2 hw, hk2] at h1
          simp at h1
        · exact ⟨Bool.eq_false_iff.2 hw, Bool.eq_false_iff.2 hk2⟩
  · rintro ⟨hw, hk⟩
    rw [List.mem_flatten]
    refine ⟨stopAllEvents x.1 x.2.1, List.mem_map.2 ⟨x, hx, rfl⟩, ?_⟩
    rw [stopAllEvents, hw, hk]
    simp

/-- Witness for C5 on a mixed registry: the streaming process exits within
the window, while the stubborn recording process is killed at the uniform
5000 ms mark (not at the 10000 ms recording-stop window). -/
theorem C5_stopAll_uniform_witness :
    (RegWf regMixed ∧ ∀ x ∈ regMixed, x.2.1.termRaises = false) ∧
    (∃ evs t, stopAllProcesses regMixed = Outcome.ok ([], evs, t) ∧
      ∀ x ∈ regMixed,
        Event.signalE x.1 Signal.sigterm ∈ evs ∧
        (Event.signalE x.1 Signal.sigkill ∈ evs ↔
          (exitsWithin x.2.1.exitOnTerm 5000 = false ∧ x.2.1.killRaises = false)) ∧
        stopAllCompletion x.2.1 ≤ t) :=
  ⟨⟨by decide, by decide⟩,
    C5_stopAll_uniform regMixed (by decide) (by decide)⟩

theorem find_in_replaced (reg : Registry) (k : String) (v : ProcHandle × ProcessEntry)
    (h : mapHas reg k = true) :
    mapGet (reg.map (fun x => if x.1 == k then (k, v) else x)) k = some v := by
  induction reg with
  | nil => simp [mapHas] at h
  | cons x rest ih =>
    rw [List.map_cons]
    by_cases hx : (x.1 == k) = true
    · rw [if_pos hx]
      unfold mapGet
      rw [List.find?_cons_of_pos _ (by simp)]
      rfl
    · rw [if_neg hx]
      have hrest : mapHas rest k = true := by
        rw [mapHas, List.any_cons, Bool.eq_false_iff.2 hx] at h
        rw [mapHas]
        simpa using h
      unfold mapGet at ih ⊢
      rw [List.find?_cons_of_neg _ (by simpa using hx)]
      exact ih hrest

theorem find_in_appended (reg : Registry) (k : String) (v : ProcHandle × ProcessEntry)
    (h : mapHas reg k = false) :
    mapGet (reg ++ [(k, v)]) k = some v := by
  induction reg with
  | nil =>
    unfold mapGet
    rw [List.nil_append, List.find?_cons_of_pos _ (by simp)]
    rfl
  | cons x rest ih =>
    rw [mapHas, List.any_cons] at h
    have hx : (x.1 == k) = false := by
      cases hc : (x.1 == k) with
      | false => rfl
      | true => rw [hc] at h; simp at h
    have hrest : mapHas rest k = false := by
      rw [hx] at h
      rw [mapHas]
      simpa using h
    rw [List.cons_append]
    unfold mapGet at ih ⊢
    rw [List.find?_cons_of_neg _ (by simp [hx])]
    exact ih hrest

theorem mapGet_set_self (reg : Registry) (k : String) (v : ProcHandle × ProcessEntry) :
    mapGet (mapSet reg k v) k = some v := by
  unfold mapSet
  by_cases h : mapHas reg k = true
  · rw [if_pos h]
    exact find_in_replaced reg k v h
  · rw [if_neg h]
    exact find_in_appended reg k v (Bool.eq_false_iff.2 h)

/-- C6 counterexample: with both the primary and the fallback directory
creation failing, both start operations reject (the second `ensureDir` call
is outside the try/catch), instead of resolving to their boolean/result
failure value — an error escapes the public contract. -/
theorem C6_directory_failure_counterexample :
    startHlsStream envBothDirsFail [] "cam1" "url1" = Outcome.raised ∧
    startRecording envBothDirsFail [] "cam1" "url1" = Outcome.raised := by
  constructor
  · rfl
  · rfl

/-- C6 amended: the fallback directory under the OS temporary root is
attempted only when creation of the primary directory fails; but when both
creations fail, the start operation does not fail with its boolean/result
value — the directory-creation rejection escapes the public contract of
`startHlsStream` and `startRecording`. -/
theorem C6_directory_fallback_amended
    (env : StartEnv) (reg : Registry) (cameraId rtspUrl : String)
    (hurl : rtspUrl ≠ "") (hav : env.ffmpegAvailable = true) :
    (mapHas reg (getProcessKey cameraId ProcType.hls) = false →
      (env.primaryOk = true →
        hlsTrace (startHlsStream env reg cameraId rtspUrl) =
          some [Event.mkdirE (hlsPrimaryDir env cameraId),
            Event.spawnE env.proc.pid, Event.delayE 1000]) ∧
      (env.primaryOk = false → env.fallbackOk = true →
        hlsTrace (startHlsStream env reg cameraId rtspUrl) =
          some [Event.mkdirE (hlsPrimaryDir env cameraId),
            Event.mkdirE (hlsFallbackDir env cameraId),
            Event.spawnE env.proc.pid, Event.delayE 1000]) ∧
      (env.primaryOk = false → env.fallbackOk = false →
        startHlsStream env reg cameraId rtspUrl = Outcome.raised)) ∧
    (mapGet reg (getProcessKey cameraId ProcType.recording) = none →
      (env.primaryOk = true →
        recTrace (startRecording env reg cameraId rtspUrl) =
          some [Event.mkdirE (recPrimaryDir env cameraId),
            Event.spawnE env.proc.pid]) ∧
      (env.primaryOk = false → env.fallbackOk = true →
        recTrace (startRecording env reg cameraId rtspUrl) =
          some [Event.mkdirE (recPrimaryDir env cameraId),
            Event.mkdirE (recFallbackDir env cameraId),
            Event.spawnE env.proc.pid]) ∧
      (env.primaryOk = false → env.fallbackOk = false →
        startRecording env reg cameraId rtspUrl = Outcome.raised)) := by
  constructor
  · intro hhas
    refine ⟨?_, ?_, ?_⟩
    · intro hp
      simp [startHlsStream, hurl, hav, hhas, resolveDir, hp, hlsTrace]
    · intro hp hf
      simp [startHlsStream, hurl, hav, hhas, resolveDir, hp, hf, hlsTrace]
    · intro hp hf
      simp [startHlsStream, hurl, hav, hhas, resolveDir, hp, hf]
  · intro hget
    refine ⟨?_, ?_, ?_⟩
    · intro hp
      simp [startRecording, hurl, hav, hget, resolveDir, hp, recTrace]
    · intro hp hf
      simp [startRecording, hurl, hav, hget, resolveDir, hp, hf, recTrace]
    · intro hp hf
      simp [startRecording, hurl, hav, hget, resolveDir, hp, hf]

/-- Witness for the amended C6, applied with a working primary directory
and with a primary failure recovered by the fallback. -/
theorem C6_directory_fallback_amended_witness :
    (("url1" : String) ≠ "" ∧ envOk.ffmpegAvailable = true ∧
      envFallbackOnly.ffmpegAvailable = true) ∧
    hlsTrace (startHlsStream envOk [] "cam1" "url1") =
      some [Event.mkdirE (hlsPrimaryDir envOk "cam1"),
        Event.spawnE envOk.proc.pid, Event.delayE 1000] ∧
    recTrace (startRecording envFallbackOnly [] "cam1" "url1") =
      some [Event.mkdirE (recPrimaryDir envFallbackOnly "cam1"),
        Event.mkdirE (recFallbackDir envFallbackOnly "cam1"),
        Event.spawnE envFallbackOnly.proc.pid] :=
  ⟨⟨by decide, by decide, by decide⟩,
    ((C6_directory_fallback_amended envOk [] "cam1" "url1" (by decide) (by decide)).1
      (by decide)).1 (by decide),
    (((C6_directory_fallback_amended envFallbackOnly [] "cam1" "url1"
      (by decide) (by decide)).2 (by decide)).2.1 (by decide) (by decide))⟩

/-- C7 counterexample: a spawn that yields no process id still creates a
registry entry (with pid recorded as 0), and `startRecording` then returns
`success = false` while that entry is present — contradicting both "entries
are created only after a spawn that yielded a valid pid" and "no registry
entry exists for the key when the start operation returns failure". -/
theorem C7_registry_insertion_counterexample :
    startRecording envNoPid [] "cam1" "url1" =
      Outcome.ok
        ([("cam1-recording", procNoPid,
          { pid := 0, type := ProcType.recording, cameraId := "cam1",
            startTime := dt0,
            outputPath := "/app/./recordings/cam1/2024-01-15_14-30-00.mp4" })],
         { success := false, filename := some "2024-01-15_14-30-00.mp4" },
         [Event.mkdirE "/app/./recordings/cam1", Event.spawnE none]) ∧
    mapHas [("cam1-recording", procNoPid,
      { pid := 0, type := ProcType.recording, cameraId := "cam1",
        startTime := dt0,
        outputPath := "/app/./recordings/cam1/2024-01-15_14-30-00.mp4" })]
      (getProcessKey "cam1" ProcType.recording) = true := by
  constructor
  · rfl
  · rfl

/-- C7 amended: each start operation returns success iff a process id was
obtained, but the registry entry is inserted unconditionally after spawning
(with pid recorded as 0 when none was obtained): at the moment
`startRecording` returns failure the entry is still registered, and the
entry registered by `startHlsStream` is still present at return whenever no
error/exit callback fired during the settle delay. -/
theorem C7_registry_insertion_amended
    (env : StartEnv) (reg : Registry) (cameraId rtspUrl : String)
    (hurl : rtspUrl ≠ "") (hav : env.ffmpegAvailable = true)
    (hp : env.primaryOk = true) :
    (mapGet reg (getProcessKey cameraId ProcType.recording) = none →
      startRecording env reg cameraId rtspUrl =
        Outcome.ok
          (mapSet reg (getProcessKey cameraId ProcType.recording)
            (env.proc,
              { pid := env.proc.pid.getD 0, type := ProcType.recording,
                cameraId := cameraId, startTime := env.now,
                outputPath := recPrimaryDir env cameraId ++ "/" ++
                  generateRecordingFilename env.now }),
           { success := env.proc.pid.isSome,
             filename := some (generateRecordingFilename env.now) },
           [Event.mkdirE (recPrimaryDir env cameraId), Event.spawnE env.proc.pid]) ∧
      mapGet (mapSet reg (getProcessKey cameraId ProcType.recording)
          (env.proc,
            { pid := env.proc.pid.getD 0, type := ProcType.recording,
              cameraId := cameraId, startTime := env.now,
              outputPath := recPrimaryDir env cameraId ++ "/" ++
                generateRecordingFilename env.now }))
        (getProcessKey cameraId ProcType.recording) =
        some (env.proc,
          { pid := env.proc.pid.getD 0, type := ProcType.recording,
            cameraId := cameraId, startTime := env.now,
            outputPath := recPrimaryDir env cameraId ++ "/" ++
              generateRecordingFilename env.now })) ∧
    (mapHas reg (getProcessKey cameraId ProcType.hls) = false →
      env.settleDeletes = false →
      startHlsStream env reg cameraId rtspUrl =
        Outcome.ok
          (mapSet reg (getProcessKey cameraId ProcType.hls)
            (env.proc,
              { pid := env.proc.pid.getD 0, type := ProcType.hls,
                cameraId := cameraId, startTime := env.now,
                outputPath := hlsPrimaryDir env cameraId ++ "/stream.m3u8" }),
           env.proc.pid.isSome,
           [Event.mkdirE (hlsPrimaryDir env cameraId),
             Event.spawnE env.proc.pid, Event.delayE 1000]) ∧
      mapGet (mapSet reg (getProcessKey cameraId ProcType.hls)
          (env.proc,
            { pid := env.proc.pid.getD 0, type := ProcType.hls,
              cameraId := cameraId, startTime := env.now,
              outputPath := hlsPrimaryDir env cameraId ++ "/stream.m3u8" }))
        (getProcessKey cameraId ProcType.hls) =
        some (env.proc,
          { pid := env.proc.pid.getD 0, type := ProcType.hls,
            cameraId := cameraId, startTime := env.now,
            outputPath := hlsPrimaryDir env cameraId ++ "/stream.m3u8" })) := by
  constructor
  · intro hget
    exact ⟨by simp [startRecording, hurl, hav, hget, resolveDir, hp],
      mapGet_set_self reg _ _⟩
  · intro hhas hsd
    exact ⟨by simp [startHlsStream, hurl, hav, hhas, resolveDir, hp, hsd],
      mapGet_set_self reg _ _⟩

/-- Witness for the amended C7: with a failed spawn (`envNoPid`) the entry
is registered although `success = false` is returned; with a healthy spawn
(`envOk`) the stream start registers the entry and returns `true`. -/
theorem C7_registry_insertion_amended_witness :
    recSuccess (startRecording envNoPid [] "cam1" "url1") = some false ∧
    (recRegistry (startRecording envNoPid [] "cam1" "url1")).map
      (fun r => (mapGet r (getProcessKey "cam1" ProcType.recording)).isSome) =
      some true ∧
    recSuccess (startRecording envOk [] "cam1" "url1") = some true := by
  have h1 := (C7_registry_insertion_amended envNoPid [] "cam1" "url1"
    (by decide) (by decide) (by decide)).1 (by decide)
  have h2 := (C7_registry_insertion_amended envOk [] "cam1" "url1"
    (by decide) (by decide) (by decide)).1 (by decide)
  refine ⟨?_, ?_, ?_⟩
  · rw [h1.1]
    rfl
  · rw [h1.1]
    rfl
  · rw [h2.1]
    rfl

/-- C9 counterexample: `startRecording` produces no settle-delay event at
all — its trace on a healthy start is directory creation followed by the
spawn, with no suspension between spawning and returning. -/
theorem C9_settle_delay_counterexample :
    recTrace (startRecording envOk [] "cam1" "url1") =
      some [Event.mkdirE "/app/./recordings/cam1", Event.spawnE (some 4242)] ∧
    (recTrace (startRecording envOk [] "cam1" "url1")).map hasDelay = some false := by
  constructor
  · rfl
  · rfl

/-- C9 amended: only `startHlsStream` waits the fixed 1000 ms settle delay
between spawning and returning (and that delay is its sole suspension after
the spawn); `startRecording` returns immediately after spawning, with no
delay anywhere in its trace. -/
theorem C9_settle_delay_amended
    (env : StartEnv) (reg : Registry) (cameraId rtspUrl : String)
    (hurl : rtspUrl ≠ "") (hav : env.ffmpegAvailable = true)
    (hdir : env.primaryOk = true ∨ env.fallbackOk = true) :
    (mapHas reg (getProcessKey cameraId ProcType.hls) = false →
      (hlsTrace (startHlsStream env reg cameraId rtspUrl)).map afterSpawn =
        some [Event.delayE 1000]) ∧
    (mapGet reg (getProcessKey cameraId ProcType.recording) = none →
      (recTrace (startRecording env reg cameraId rtspUrl)).map afterSpawn = some [] ∧
      (recTrace (startRecording env reg cameraId rtspUrl)).map hasDelay = some false) := by
  constructor
  · intro hhas
    rcases hdir with hp | hf
    · simp [startHlsStream, hurl, hav, hhas, resolveDir, hp, hlsTrace, afterSpawn]
    · by_cases hp : env.primaryOk = true
      · simp [startHlsStream, hurl, hav, hhas, resolveDir, hp, hlsTrace, afterSpawn]
      · simp [startHlsStream, hurl, hav, hhas, resolveDir,
          Bool.eq_false_iff.2 hp, hf, hlsTrace, afterSpawn]
  · intro hget
    rcases hdir with hp | hf
    · constructor
      · simp [startRecording, hurl, hav, hget, resolveDir, hp, recTrace, afterSpawn]
      · simp [startRecording, hurl, hav, hget, resolveDir, hp, recTrace, hasDelay]
    · by_cases hp : env.primaryOk = true
      · constructor
        · simp [startRecording, hurl, hav, hget, resolveDir, hp, recTrace, afterSpawn]
        · simp [startRecording, hurl, hav, hget, resolveDir, hp, recTrace, hasDelay]
      · constructor
        · simp [startRecording, hurl, hav, hget, resolveDir,
            Bool.eq_false_iff.2 hp, hf, recTrace, afterSpawn]
        · simp [startRecording, hurl, hav, hget, resolveDir,
            Bool.eq_false_iff.2 hp, hf, recTrace, hasDelay]

/-- Witness for the amended C9 at a concrete healthy start. -/
theorem C9_settle_delay_amended_witness :
    (("url1" : String) ≠ "" ∧ envOk.ffmpegAvailable = true ∧ envOk.primaryOk = true) ∧
    (hlsTrace (startHlsStream envOk [] "cam1" "url1")).map afterSpawn =
      some [Event.delayE 1000] ∧
    (recTrace (startRecording envOk [] "cam1" "url1")).map afterSpawn = some [] ∧
    (recTrace (startRecording envOk [] "cam1" "url1")).map hasDelay = some false :=
  ⟨⟨by decide, by decide, by decide⟩,
    (C9_settle_delay_amended envOk [] "cam1" "url1"
      (by decide) (by decide) (Or.inl (by decide))).1 (by decide),
    (C9_settle_delay_amended envOk [] "cam1" "url1"
      (by decide) (by decide) (Or.inl (by decide))).2 (by decide)⟩

/-- C10 counterexample: when the unguarded `kill('SIGTERM')` raises,
`stopHlsStream` does not return `true` — the exception escapes, so no
boolean is returned at all. -/
theorem C10_stop_raises_counterexample :
    stopHlsStream regTermRaisesHls "cam1" = Outcome.raised ∧
    returnedBool (stopHlsStream regTermRaisesHls "cam1") = none := by
  constructor
  · rfl
  · rfl

/-- C10 amended: neither stop operation ever returns `false` — every path
that returns a boolean returns `true`, so the result carries no failure
information — but a raising graceful kill makes `stopHlsStream` (or, when
both `SIGINT` and the fallback `SIGTERM` raise, `stopRecording`) propagate
the exception instead of returning. -/
theorem C10_stop_never_false_amended (reg : Registry) (cameraId : String) :
    returnedFalse (stopHlsStream reg cameraId) = false ∧
    returnedFalse (stopRecording reg cameraId) = false := by
  constructor
  · rw [stopHlsStream]
    cases hget : mapGet reg (getProcessKey cameraId ProcType.hls) with
    | none => rfl
    | some pe =>
      obtain ⟨p, e⟩ := pe
      by_cases h1 : p.termRaises = true
      · simp [h1, returnedFalse]
      · by_cases h2 : exitsWithin p.exitOnTerm 5000 = true
        · simp [Bool.eq_false_iff.2 h1, h2, returnedFalse]
        · by_cases h3 : p.killRaises = true
          · cases h4 : p.exitOnTerm with
            | none => simp [Bool.eq_false_iff.2 h1, Bool.eq_false_iff.2 h2, h3, h4,
                returnedFalse, exitsWithin]
            | some t => simp [Bool.eq_false_iff.2 h1, Bool.eq_false_iff.2 h2, h3, h4,
                returnedFalse, exitsWithin]
          · simp [Bool.eq_false_iff.2 h1, Bool.eq_false_iff.2 h2,
              Bool.eq_false_iff.2 h3, returnedFalse]
  · rw [stopRecording]
    cases hget : mapGet reg (getProcessKey cameraId ProcType.recording) with
    | none => rfl
    | some pe =>
      obtain ⟨p, e⟩ := pe
      by_cases h1 : p.intRaises = true
      · by_cases h1b : p.termRaises = true
        · simp [h1, h1b, returnedFalse]
        · by_cases h2 : exitsWithin p.exitOnTerm 10000 = true
          · simp [h1, Bool.eq_false_iff.2 h1b, h2, returnedFalse]
          · by_cases h3 : p.killRaises = true
            · simp [h1, Bool.eq_false_iff.2 h1b, Bool.eq_false_iff.2 h2, h3,
                returnedFalse]
            · simp [h1, Bool.eq_false_iff.2 h1b, Bool.eq_false_iff.2 h2,
                Bool.eq_false_iff.2 h3, returnedFalse]
      · by_cases h2 : exitsWithin p.exitOnInt 10000 = true
        · simp [Bool.eq_false_iff.2 h1, h2, returnedFalse]
        · by_cases h3 : p.killRaises = true
          · simp [Bool.eq_false_iff.2 h1, Bool.eq_false_iff.2 h2, h3, returnedFalse]
          · simp [Bool.eq_false_iff.2 h1, Bool.eq_false_iff.2 h2,
              Bool.eq_false_iff.2 h3, returnedFalse]

theorem digit_isDigit : ∀ x, x < 10 → (digitChar x).isDigit = true := by decide

theorem digit_lt_iff : ∀ x, x < 10 → ∀ y, y < 10 →
    (digitChar x < digitChar y ↔ x < y) := by decide

theorem digit_inj : ∀ x, x < 10 → ∀ y, y < 10 → digitChar x = digitChar y → x = y := by
  decide

theorem digit_ne_T : ∀ x, x < 10 → ¬digitChar x = Char.ofNat 84 := by decide

theorem rcd_keep_digit : ∀ x, x < 10 →
    (if digitChar x = Char.ofNat 58 ∨ digitChar x = Char.ofNat 46 then Char.ofNat 45
     else digitChar x) = digitChar x := by decide

theorem rcd_append (l1 l2 : List Char) :
    replaceColonsDots (l1 ++ l2) = replaceColonsDots l1 ++ replaceColonsDots l2 :=
  List.map_append _ l1 l2

theorem rcd_c45 : replaceColonsDots [Char.ofNat 45] = [Char.ofNat 45] := by decide

theorem rcd_c58 : replaceColonsDots [Char.ofNat 58] = [Char.ofNat 45] := by decide

theorem rcd_c46 : replaceColonsDots [Char.ofNat 46] = [Char.ofNat 45] := by decide

theorem rcd_c84 : replaceColonsDots [Char.ofNat 84] = [Char.ofNat 84] := by decide

theorem rcd_c90 : replaceColonsDots [Char.ofNat 90] = [Char.ofNat 90] := by decide

theorem rcd_pad2 (n : Nat) (h : n < 100) : replaceColonsDots (pad2 n) = pad2 n := by
  unfold replaceColonsDots pad2
  rw [List.map_cons, List.map_cons, List.map_nil,
    rcd_keep_digit _ (by omega), rcd_keep_digit _ (by omega)]

theorem rcd_pad3 (n : Nat) (h : n < 1000) : replaceColonsDots (pad3 n) = pad3 n := by
  unfold replaceColonsDots pad3
  rw [List.map_cons, List.map_cons, List.map_cons, List.map_nil,
    rcd_keep_digit _ (by omega), rcd_keep_digit _ (by omega),
    rcd_keep_digit _ (by omega)]

theorem rcd_pad4 (n : Nat) (h : n < 10000) : replaceColonsDots (pad4 n) = pad4 n := by
  unfold replaceColonsDots pad4
  rw [List.map_cons, List.map_cons, List.map_cons, List.map_cons, List.map_nil,
    rcd_keep_digit _ (by omega), rcd_keep_digit _ (by omega),
    rcd_keep_digit _ (by omega), rcd_keep_digit _ (by omega)]

theorem noT_pad2 (n : Nat) (h : n < 100) : Char.ofNat 84 ∉ pad2 n := by
  intro hm
  unfold pad2 at hm
  rcases List.mem_cons.1 hm with hm1 | hm1
  · exact digit_ne_T _ (by omega) hm1.symm
  · rcases List.mem_cons.1 hm1 with hm2 | hm2
    · exact digit_ne_T _ (by omega) hm2.symm
    · cases hm2

theorem noT_pad4 (n : Nat) (h : n < 10000) : Char.ofNat 84 ∉ pad4 n := by
  intro hm
  unfold pad4 at hm
  rcases List.mem_cons.1 hm with hm1 | hm1
  · exact digit_ne_T _ (by omega) hm1.symm
  · rcases List.mem_cons.1 hm1 with hm2 | hm2
    · exact digit_ne_T _ (by omega) hm2.symm
    · rcases List.mem_cons.1 hm2 with hm3 | hm3
      · exact digit_ne_T _ (by omega) hm3.symm
      · rcases List.mem_cons.1 hm3 with hm4 | hm4
        · exact digit_ne_T _ (by omega) hm4.symm
        · cases hm4

theorem noT_c45 : Char.ofNat 84 ∉ [Char.ofNat 45] := by decide

theorem replT_append_no_T (l1 l2 : List Char) (h : Char.ofNat 84 ∉ l1) :
    replaceFirstT (l1 ++ l2) = l1 ++ replaceFirstT l2 := by
  induction l1 with
  | nil => simp
  | cons c cs ih =>
    rw [List.cons_append]
    show (if c = Char.ofNat 84 then Char.ofNat 95 :: (cs ++ l2)
      else c :: replaceFirstT (cs ++ l2)) = c :: (cs ++ replaceFirstT l2)
    rw [if_neg (fun hc : c = Char.ofNat 84 => h (hc ▸ List.mem_cons_self c cs)),
      ih (fun hm => h (List.mem_cons_of_mem _ hm))]

theorem replT_at_T (l : List Char) :
    replaceFirstT (Char.ofNat 84 :: l) = Char.ofNat 95 :: l := by
  show (if Char.ofNat 84 = Char.ofNat 84 then Char.ofNat 95 :: l
    else Char.ofNat 84 :: replaceFirstT l) = Char.ofNat 95 :: l
  rw [if_pos rfl]

theorem replT_at_T_append (l : List Char) :
    replaceFirstT ([Char.ofNat 84] ++ l) = Char.ofNat 95 :: l := by
  rw [List.singleton_append]
  exact replT_at_T l

theorem pad4_split (n : Nat) : pad4 n = pad2 (n / 100) ++ pad2 (n % 100) := by
  unfold pad4 pad2
  have h1 : n / 100 / 10 = n / 1000 := by omega
  have h2 : n % 100 / 10 = n / 10 % 10 := by omega
  have h3 : n % 100 % 10 = n % 10 := by omega
  rw [h1, h2, h3]
  rfl

theorem pad2_eq_iff (a b : Nat) (ha : a < 100) (hb : b < 100) :
    pad2 a = pad2 b ↔ a = b := by
  constructor
  · intro h
    unfold pad2 at h
    have h1 := List.cons.inj h
    have h2 := List.cons.inj h1.2
    have e1 := digit_inj _ (by omega) _ (by omega) h1.1
    have e2 := digit_inj _ (by omega) _ (by omega) h2.1
    omega
  · intro h
    rw [h]

theorem pad4_inj (a b : Nat) (ha : a < 10000) (hb : b < 10000)
    (h : pad4 a = pad4 b) : a = b := by
  unfold pad4 at h
  have h1 := List.cons.inj h
  have h2 := List.cons.inj h1.2
  have h3 := List.cons.inj h2.2
  have h4 := List.cons.inj h3.2
  have e1 := digit_inj _ (by omega) _ (by omega) h1.1
  have e2 := digit_inj _ (by omega) _ (by omega) h2.1
  have e3 := digit_inj _ (by omega) _ (by omega) h3.1
  have e4 := digit_inj _ (by omega) _ (by omega) h4.1
  omega

theorem lexLt_cons_same (c : Char) (l1 l2 : List Char) :
    lexLt (c :: l1) (c :: l2) = lexLt l1 l2 := by
  show (if c < c then true else if c < c then false else lexLt l1 l2) = lexLt l1 l2
  rw [if_neg (lt_irrefl c), if_neg (lt_irrefl c)]

theorem pad2_lexLt (a b : Nat) (ha : a < 100) (hb : b < 100) :
    lexLt (pad2 a) (pad2 b) = decide (a < b) := by
  unfold pad2
  show (if digitChar (a / 10) < digitChar (b / 10) then true
    else if digitChar (b / 10) < digitChar (a / 10) then false
    else if digitChar (a % 10) < digitChar (b % 10) then true
    else if digitChar (b % 10) < digitChar (a % 10) then false
    else lexLt [] []) = decide (a < b)
  rcases Nat.lt_trichotomy (a / 10) (b / 10) with hc | hc | hc
  · rw [if_pos ((digit_lt_iff _ (by omega) _ (by omega)).2 hc)]
    have : a < b := by omega
    simp [this]
  · rw [if_neg (by rw [hc]; exact lt_irrefl _), if_neg (by rw [hc]; exact lt_irrefl _)]
    rcases Nat.lt_trichotomy (a % 10) (b % 10) with hd | hd | hd
    · rw [if_pos ((digit_lt_iff _ (by omega) _ (by omega)).2 hd)]
      have : a < b := by omega
      simp [this]
    · rw [if_neg (by rw [hd]; exact lt_irrefl _), if_neg (by rw [hd]; exact lt_irrefl _)]
      have : ¬a < b := by omega
      simp [lexLt, this]
    · rw [if_neg (fun hcc => absurd ((digit_lt_iff _ (by omega) _ (by omega)).1 hcc)
        (by omega)), if_pos ((digit_lt_iff _ (by omega) _ (by omega)).2 hd)]
      have : ¬a < b := by omega
      simp [this]
  · rw [if_neg (fun hcc => absurd ((digit_lt_iff _ (by omega) _ (by omega)).1 hcc)
      (by omega)), if_pos ((digit_lt_iff _ (by omega) _ (by omega)).2 hc)]
    have : ¬a < b := by omega
    simp [this]

theorem lexLt_append_congr (xs : List Char) :
    ∀ us ys vs : List Char, xs.length = us.length →
      lexLt (xs ++ ys) (us ++ vs) = if xs = us then lexLt ys vs else lexLt xs us := by
  induction xs with
  | nil =>
    intro us ys vs h
    have : us = [] := List.length_eq_zero.1 h.symm
    subst this
    simp
  | cons a as ih =>
    intro us ys vs h
    cases us with
    | nil => simp at h
    | cons b bs =>
      rw [List.cons_append, List.cons_append]
      show (if a < b then true else if b < a then false else lexLt (as ++ ys) (bs ++ vs)) =
        if a :: as = b :: bs then lexLt ys vs else
          (if a < b then true else if b < a then false else lexLt as bs)
      rcases lt_trichotomy a b with hab | hab | hab
      · rw [if_pos hab, if_neg (fun hc => absurd (List.cons.inj hc).1
          (ne_of_lt hab)), if_pos hab]
      · subst hab
        rw [if_neg (lt_irrefl a), if_neg (lt_irrefl a),
          ih bs ys vs (by simpa using h)]
        by_cases hase : as = bs
        · rw [if_pos hase, if_pos (by rw [hase])]
        · rw [if_neg hase, if_neg (fun hc => hase (List.cons.inj hc).2),
            if_neg (lt_irrefl a), if_neg (lt_irrefl a)]
      · rw [if_neg (not_lt_of_gt hab), if_pos hab,
          if_neg (fun hc => absurd (List.cons.inj hc).1
            (ne_of_gt hab)), if_neg (not_lt_of_gt hab), if_pos hab]

theorem lexLt_pad2_blocks (a b : Nat) (ha : a < 100) (hb : b < 100)
    (ys vs : List Char) :
    lexLt (pad2 a ++ ys) (pad2 b ++ vs) =
      if a = b then lexLt ys vs else decide (a < b) := by
  rw [lexLt_append_congr (pad2 a) (pad2 b) ys vs rfl]
  by_cases hab : a = b
  · rw [if_pos (by rw [hab]), if_pos hab]
  · rw [if_neg (fun hc => hab ((pad2_eq_iff a b ha hb).1 hc)), if_neg hab,
      pad2_lexLt a b ha hb]

theorem iso_rcd (d : DateTime) (h : d.Valid) :
    replaceColonsDots (toISOString d) =
      pad4 d.year ++ ([Char.ofNat 45] ++ (pad2 d.month ++ ([Char.ofNat 45] ++
        (pad2 d.day ++ ([Char.ofNat 84] ++ (pad2 d.hour ++ ([Char.ofNat 45] ++
          (pad2 d.minute ++ ([Char.ofNat 45] ++ (pad2 d.second ++ ([Char.ofNat 45] ++
            (pad3 d.ms ++ [Char.ofNat 90])))))))))))) := by
  obtain ⟨hy, hmo, hda, hh, hmi, hs, hms⟩ := h
  rw [toISOString]
  simp only [rcd_append]
  rw [rcd_pad4 _ hy, rcd_pad2 _ (by omega), rcd_pad2 _ (by omega),
    rcd_pad2 _ (by omega), rcd_pad2 _ (by omega), rcd_pad2 _ (by omega),
    rcd_pad3 _ hms, rcd_c45, rcd_c58, rcd_c46, rcd_c84, rcd_c90]

theorem fnStem_length (d : DateTime) : (fnStem d).length = 19 := by
  simp [fnStem, pad4, pad2]

theorem filename_data (d : DateTime) (h : d.Valid) :
    (generateRecordingFilename d).data =
      fnStem d ++ [Char.ofNat 46, Char.ofNat 109, Char.ofNat 112, Char.ofNat 52] := by
  have hb := h
  obtain ⟨hy, hmo, hda, hh, hmi, hs, hms⟩ := hb
  have hrep : replaceFirstT (replaceColonsDots (toISOString d)) =
      fnStem d ++ ([Char.ofNat 45] ++ (pad3 d.ms ++ [Char.ofNat 90])) := by
    rw [iso_rcd d h]
    rw [replT_append_no_T _ _ (noT_pad4 _ hy),
      replT_append_no_T _ _ noT_c45,
      replT_append_no_T _ _ (noT_pad2 _ (by omega)),
      replT_append_no_T _ _ noT_c45,
      replT_append_no_T _ _ (noT_pad2 _ (by omega)),
      replT_at_T_append]
    simp [fnStem, List.append_assoc]
  rw [generateRecordingFilename, String.data_append, hrep]
  have hmp4 : (".mp4" : String).data =
      [Char.ofNat 46, Char.ofNat 109, Char.ofNat 112, Char.ofNat 52] := by decide
  rw [hmp4]
  congr 1

theorem matchesPattern_mk (y3 y2 y1 y0 mo1 mo0 da1 da0 hh1 hh0 mi1 mi0 ss1 ss0 : Char) :
    matchesPattern (String.mk [y3, y2, y1, y0, Char.ofNat 45, mo1, mo0, Char.ofNat 45,
      da1, da0, Char.ofNat 95, hh1, hh0, Char.ofNat 45, mi1, mi0, Char.ofNat 45,
      ss1, ss0, Char.ofNat 46, Char.ofNat 109, Char.ofNat 112, Char.ofNat 52]) =
      (y3.isDigit && y2.isDigit && y1.isDigit && y0.isDigit &&
       mo1.isDigit && mo0.isDigit && da1.isDigit && da0.isDigit &&
       hh1.isDigit && hh0.isDigit && mi1.isDigit && mi0.isDigit &&
       ss1.isDigit && ss0.isDigit) := by
  simp [matchesPattern]

theorem matchesPattern_of_valid (d : DateTime) (h : d.Valid) :
    matchesPattern (generateRecordingFilename d) = true := by
  have hb := h
  obtain ⟨hy, hmo, hda, hh, hmi, hs, hms⟩ := hb
  have hgen : generateRecordingFilename d =
      String.mk (fnStem d ++
        [Char.ofNat 46, Char.ofNat 109, Char.ofNat 112, Char.ofNat 52]) :=
    String.ext (filename_data d h)
  rw [hgen]
  have hlist : fnStem d ++
      [Char.ofNat 46, Char.ofNat 109, Char.ofNat 112, Char.ofNat 52] =
      [digitChar (d.year / 1000), digitChar (d.year / 100 % 10),
       digitChar (d.year / 10 % 10), digitChar (d.year % 10), Char.ofNat 45,
       digitChar (d.month / 10), digitChar (d.month % 10), Char.ofNat 45,
       digitChar (d.day / 10), digitChar (d.day % 10), Char.ofNat 95,
       digitChar (d.hour / 10), digitChar (d.hour % 10), Char.ofNat 45,
       digitChar (d.minute / 10), digitChar (d.minute % 10), Char.ofNat 45,
       digitChar (d.second / 10), digitChar (d.second % 10), Char.ofNat 46,
       Char.ofNat 109, Char.ofNat 112, Char.ofNat 52] := by
    simp [fnStem, pad4, pad2]
  rw [hlist]
  rw [matchesPattern_mk]
  rw [digit_isDigit _ (by omega), digit_isDigit _ (by omega),
    digit_isDigit _ (by omega), digit_isDigit _ (by omega),
    digit_isDigit _ (by omega), digit_isDigit _ (by omega),
    digit_isDigit _ (by omega), digit_isDigit _ (by omega),
    digit_isDigit _ (by omega), digit_isDigit _ (by omega),
    digit_isDigit _ (by omega), digit_isDigit _ (by omega),
    digit_isDigit _ (by omega), digit_isDigit _ (by omega)]
  rfl

theorem fnStem_inj (d1 d2 : DateTime) (h1 : d1.Valid) (h2 : d2.Valid)
    (h : fnStem d1 = fnStem d2) : truncSec d1 = truncSec d2 := by
  obtain ⟨hy1, hmo1, hda1, hh1, hmi1, hs1, _⟩ := h1
  obtain ⟨hy2, hmo2, hda2, hh2, hmi2, hs2, _⟩ := h2
  simp only [fnStem, pad4, pad2, List.cons_append, List.nil_append,
    List.cons.injEq] at h
  obtain ⟨e1, e2, e3, e4, _, e5, e6, _, e7, e8, _, e9, e10, _, e11, e12, _,
    e13, e14, _⟩ := h
  have f1 := digit_inj _ (by omega) _ (by omega) e1
  have f2 := digit_inj _ (by omega) _ (by omega) e2
  have f3 := digit_inj _ (by omega) _ (by omega) e3
  have f4 := digit_inj _ (by omega) _ (by omega) e4
  have f5 := digit_inj _ (by omega) _ (by omega) e5
  have f6 := digit_inj _ (by omega) _ (by omega) e6
  have f7 := digit_inj _ (by omega) _ (by omega) e7
  have f8 := digit_inj _ (by omega) _ (by omega) e8
  have f9 := digit_inj _ (by omega) _ (by omega) e9
  have f10 := digit_inj _ (by omega) _ (by omega) e10
  have f11 := digit_inj _ (by omega) _ (by omega) e11
  have f12 := digit_inj _ (by omega) _ (by omega) e12
  have f13 := digit_inj _ (by omega) _ (by omega) e13
  have f14 := digit_inj _ (by omega) _ (by omega) e14
  simp only [truncSec, Prod.mk.injEq]
  exact ⟨by omega, by omega, by omega, by omega, by omega, by omega⟩

theorem fnStem_lexLt (d1 d2 : DateTime) (h1 : d1.Valid) (h2 : d2.Valid)
    (hlt : truncLt d1 d2) : lexLt (fnStem d1) (fnStem d2) = true := by
  obtain ⟨hy1, hmo1, hda1, hh1, hmi1, hs1, _⟩ := h1
  obtain ⟨hy2, hmo2, hda2, hh2, hmi2, hs2, _⟩ := h2
  rcases hlt with hy | ⟨ey, hcase⟩
  · unfold fnStem
    rw [pad4_split d1.year, pad4_split d2.year, List.append_assoc, List.append_assoc,
      lexLt_pad2_blocks _ _ (by omega) (by omega)]
    by_cases hhi : d1.year / 100 = d2.year / 100
    · rw [if_pos hhi, lexLt_pad2_blocks _ _ (by omega) (by omega), if_neg (by omega)]
      have : d1.year % 100 < d2.year % 100 := by omega
      simp [this]
    · rw [if_neg hhi]
      have : d1.year / 100 < d2.year / 100 := by omega
      simp [this]
  · unfold fnStem
    rw [ey, lexLt_append_congr _ _ _ _ rfl, if_pos rfl, lexLt_cons_same]
    rcases hcase with hmo | ⟨emo, hcase⟩
    · rw [lexLt_pad2_blocks _ _ (by omega) (by omega), if_neg (by omega)]
      simp [hmo]
    · rw [emo, lexLt_pad2_blocks _ _ (by omega) (by omega), if_pos rfl, lexLt_cons_same]
      rcases hcase with hda | ⟨eda, hcase⟩
      · rw [lexLt_pad2_blocks _ _ (by omega) (by omega), if_neg (by omega)]
        simp [hda]
      · rw [eda, lexLt_pad2_blocks _ _ (by omega) (by omega), if_pos rfl, lexLt_cons_same]
        rcases hcase with hho | ⟨eho, hcase⟩
        · rw [lexLt_pad2_blocks _ _ (by omega) (by omega), if_neg (by omega)]
          simp [hho]
        · rw [eho, lexLt_pad2_blocks _ _ (by omega) (by omega), if_pos rfl,
            lexLt_cons_same]
          rcases hcase with hmin | ⟨emin, hsec⟩
          · rw [lexLt_pad2_blocks _ _ (by omega) (by omega), if_neg (by omega)]
            simp [hmin]
          · rw [emin, lexLt_pad2_blocks _ _ (by omega) (by omega), if_pos rfl,
              lexLt_cons_same, pad2_lexLt _ _ (by omega) (by omega)]
            simp [hsec]

/-- C8 counterexample: two distinct clock readings in the same wall-clock
second (500 ms apart) yield the *same* generated recording filename, so
filenames are not unique per invocation. -/
theorem C8_filename_collision_counterexample :
    dt0 ≠ dt0later ∧
    generateRecordingFilename dt0 = generateRecordingFilename dt0later ∧
    generateRecordingFilename dt0 = "2024-01-15_14-30-00.mp4" := by
  refine ⟨by decide, by rfl, by rfl⟩

/-- C8 amended: every generated filename matches
`####-##-##_##-##-##.mp4`; two invocations generate equal filenames exactly
when their timestamps agree at second granularity (so invocations within
the same second collide rather than being unique); and whenever the
second-truncated start times strictly increase, the filenames strictly
increase in lexicographic (directory sort) order. -/
theorem C8_filename_pattern_amended (d1 d2 : DateTime)
    (h1 : d1.Valid) (h2 : d2.Valid) :
    matchesPattern (generateRecordingFilename d1) = true ∧
    (generateRecordingFilename d1 = generateRecordingFilename d2 ↔
      truncSec d1 = truncSec d2) ∧
    (truncLt d1 d2 →
      lexLt (generateRecordingFilename d1).data
        (generateRecordingFilename d2).data = true) := by
  refine ⟨matchesPattern_of_valid d1 h1, ⟨?_, ?_⟩, ?_⟩
  · intro he
    have hd := congrArg String.data he
    rw [filename_data d1 h1, filename_data d2 h2] at hd
    exact fnStem_inj d1 d2 h1 h2 (List.append_cancel_right hd)
  · intro ht
    apply String.ext
    rw [filename_data d1 h1, filename_data d2 h2]
    simp only [truncSec, Prod.mk.injEq] at ht
    obtain ⟨ey, emo, eda, eho, emi, esec⟩ := ht
    unfold fnStem
    rw [ey, emo, eda, eho, emi, esec]
  · intro hlt
    rw [filename_data d1 h1, filename_data d2 h2]
    have hne : fnStem d1 ≠ fnStem d2 := by
      intro hc
      have heq := fnStem_inj d1 d2 h1 h2 hc
      simp only [truncSec, Prod.mk.injEq] at heq
      obtain ⟨ey, emo, eda, eho, emi, esec⟩ := heq
      unfold truncLt at hlt
      rw [ey, emo, eda, eho, emi, esec] at hlt
      omega
    rw [lexLt_append_congr _ _ _ _ (by rw [fnStem_length, fnStem_length]),
      if_neg hne]
    exact fnStem_lexLt d1 d2 h1 h2 hlt

/-- Witness for the amended C8, at 2024-01-15T14:30:00.000Z and one second
later. -/
theorem C8_filename_pattern_amended_witness :
    (dt0.Valid ∧ dt1.Valid) ∧
    (matchesPattern (generateRecordingFilename dt0) = true ∧
     (generateRecordingFilename dt0 = generateRecordingFilename dt1 ↔
       truncSec dt0 = truncSec dt1) ∧
     (truncLt dt0 dt1 →
       lexLt (generateRecordingFilename dt0).data
         (generateRecordingFilename dt1).data = true)) :=
  ⟨⟨by decide, by decide⟩,
    C8_filename_pattern_amended dt0 dt1 (by decide) (by decide)⟩

end Recorder
